import Mathlib

/-!
Shallow embedding of the `httperrors` Go package (file `httperrors.go`,
interface-based evolution: `baseHTTPError` with `msg`, `respCode`, `errCode`,
`stack`, `inner`, `retriable`).

Modelling conventions:
* A Go `error` value reachable from a chain is either a `*baseHTTPError`
  (constructor `GoErr.link`) or a foreign error (constructor `GoErr.foreign`,
  carrying the string its own `Error()` method returns).
* A nullable Go `error` variable is `Option GoErr`; `none` is Go `nil`.
* `runtime.Stack` output is runtime state, so the result of the package-level
  `stackTrace()` helper is passed to each constructor as an explicit `trace`
  argument; a constructor uses it exactly where the Go code calls
  `stackTrace()`.
* `fmt.Sprintf(format, args...)` is modelled by passing the already-formatted
  message string to `Newf`/`Wrapf`.
-/

/-- The fields of the Go struct `baseHTTPError` (minus `inner`, which is the
recursive position and lives in `GoErr.link`). Zero values in Go: `""` for
strings, `false` for `retriable`. -/
structure LinkData where
  msg : String
  respCode : Int
  errCode : String
  stack : String
  retriable : Bool
deriving DecidableEq

/-- A Go error value as seen by this package: either a `*baseHTTPError`
(`link`, whose `inner` field is a nullable error) or a foreign error that
does not satisfy the `HTTPError` interface (`foreign`, with the text its own
`Error()` returns). -/
inductive GoErr : Type where
  | foreign (text : String) : GoErr
  | link (data : LinkData) (inner : Option GoErr) : GoErr

/-- Go constant `UninitializedResponseCode = -1`. -/
def UninitializedResponseCode : Int := -1

/-- Go constant `UninitializedErrorCode = ""`. -/
def UninitializedErrorCode : String := ""

/-- Go constant `UnknownErrorMsg = "Unknown error"`. -/
def UnknownErrorMsg : String := "Unknown error"

/-- Go constant `UninitializedStackTrace = "Stack trace unavailable"`. -/
def UninitializedStackTrace : String := "Stack trace unavailable"

/-- The loop of `(*baseHTTPError).Error()`: starting from the receiver,
append each link's non-empty `msg` and walk inward; on a foreign error append
its `Error()` text and stop; when `inner` is `nil` the loop exits. `acc` is
the `errorMsgs` accumulator. -/
def errorLoop : GoErr → List String → List String
  | .foreign t, acc => acc ++ [t]
  | .link d none, acc => acc ++ (if d.msg = "" then [] else [d.msg])
  | .link d (some e), acc =>
      errorLoop e (acc ++ if d.msg = "" then [] else [d.msg])

/-- Go method `(*baseHTTPError).Error()`: collect the messages with the loop,
substitute `[UnknownErrorMsg]` when the collection is empty, and join with
newlines. (On `GoErr.foreign` this evaluates to the foreign error's own
`Error()` text; in Go that case is dispatched to the foreign type's method.) -/
def GoErr.Error (e : GoErr) : String :=
  let errorMsgs := errorLoop e []
  String.intercalate "\n" (if errorMsgs.isEmpty then [UnknownErrorMsg] else errorMsgs)

/-- Go method `(*baseHTTPError).Message()`: walk inward while the current
link's `msg` is empty; return `UnknownErrorMsg` at a message-less root, the
foreign error's `Error()` text when the type assertion fails, else the first
non-empty `msg`. (The `foreign` equation is the foreign error's own
`Error()`; it is never a receiver of this method in Go.) -/
def GoErr.Message : GoErr → String
  | .foreign t => t
  | .link d inner =>
    if d.msg = "" then
      match inner with
      | none => UnknownErrorMsg
      | some (.foreign t) => t
      | some (.link d2 i2) => GoErr.Message (.link d2 i2)
    else d.msg

/-- Go method `(*baseHTTPError).InnerMessage()`: walk to the innermost node;
return the foreign leaf's `Error()` text, or the innermost link's `msg`
(`UnknownErrorMsg` if that is empty). -/
def GoErr.InnerMessage : GoErr → String
  | .foreign t => t
  | .link d none => if d.msg = "" then UnknownErrorMsg else d.msg
  | .link _ (some (.foreign t)) => t
  | .link _ (some (.link d2 i2)) => GoErr.InnerMessage (.link d2 i2)

/-- Go method `(*baseHTTPError).SetResponseCode(respCode)`: mutates only the
receiving link (modelled as a functional update). -/
def GoErr.SetResponseCode : GoErr → Int → GoErr
  | .foreign t, _ => .foreign t
  | .link d i, respCode => .link { d with respCode := respCode } i

/-- Go method `(*baseHTTPError).ResponseCode()`: loop while the current link's
`respCode` is the sentinel; when the type assertion on `inner` fails (`nil`
or foreign) return the current (sentinel) `respCode`, else continue inward;
on exit return the first non-sentinel `respCode`. -/
def GoErr.ResponseCode : GoErr → Int
  | .foreign _ => UninitializedResponseCode
  | .link d inner =>
    if d.respCode = UninitializedResponseCode then
      match inner with
      | some (.link d2 i2) => GoErr.ResponseCode (.link d2 i2)
      | _ => d.respCode
    else d.respCode

/-- Go method `(*baseHTTPError).SetErrorCode(errCode)`: mutates only the
receiving link. -/
def GoErr.SetErrorCode : GoErr → String → GoErr
  | .foreign t, _ => .foreign t
  | .link d i, errCode => .link { d with errCode := errCode } i

/-- Go method `(*baseHTTPError).ErrorCode()`: same loop as `ResponseCode`
with the string sentinel `UninitializedErrorCode`. -/
def GoErr.ErrorCode : GoErr → String
  | .foreign _ => UninitializedErrorCode
  | .link d inner =>
    if d.errCode = UninitializedErrorCode then
      match inner with
      | some (.link d2 i2) => GoErr.ErrorCode (.link d2 i2)
      | _ => d.errCode
    else d.errCode

/-- Go method `(*baseHTTPError).StackTrace()`: walk inward while `inner` is
non-nil; when the type assertion fails (foreign inner) return the current
link's `stack`, else continue; at the root return its `stack`. -/
def GoErr.StackTrace : GoErr → String
  | .foreign _ => ""
  | .link d none => d.stack
  | .link d (some (.foreign _)) => d.stack
  | .link _ (some (.link d2 i2)) => GoErr.StackTrace (.link d2 i2)

/-- Go method `(*baseHTTPError).SetRetriable(retriable)`: mutates only the
receiving link. -/
def GoErr.SetRetriable : GoErr → Bool → GoErr
  | .foreign t, _ => .foreign t
  | .link d i, retriable => .link { d with retriable := retriable } i

/-- Go method `(*baseHTTPError).Retriable()`: at a root return its own flag;
if `inner` is not an `HTTPError` return `true`; else recurse inward. -/
def GoErr.Retriable : GoErr → Bool
  | .foreign _ => true
  | .link d none => d.retriable
  | .link _ (some (.foreign _)) => true
  | .link _ (some (.link d2 i2)) => GoErr.Retriable (.link d2 i2)

/-- The non-nil branch of Go `Wrap(err, msg)`: build a `baseHTTPError` with
the given message, sentinel response code, zero-valued `errCode` and
`retriable`, and `inner = err`; capture a stack trace (the `trace` argument,
modelling `stackTrace()`) only when `err` is not itself a `*baseHTTPError`. -/
def wrap1 (trace : String) (err : GoErr) (msg : String) : GoErr :=
  GoErr.link
    { msg := msg
      respCode := UninitializedResponseCode
      errCode := UninitializedErrorCode
      stack :=
        match err with
        | .link _ _ => ""
        | .foreign _ => trace
      retriable := false }
    (some err)

/-- Go function `Wrap(err, msg)`: returns `nil` when `err` is `nil`,
otherwise the new wrapping link. -/
def Wrap (trace : String) (err : Option GoErr) (msg : String) : Option GoErr :=
  match err with
  | none => none
  | some e => some (wrap1 trace e msg)

/-- Go function `Wrapf(err, format, args...)`: identical body to `Wrap` with
the formatted message (`formatted` models `fmt.Sprintf(format, args...)`). -/
def Wrapf (trace : String) (err : Option GoErr) (formatted : String) : Option GoErr :=
  match err with
  | none => none
  | some e => some (wrap1 trace e formatted)

/-- Go function `New(msg)`: a root link with a captured stack trace (the
`trace` argument models `stackTrace()`) and `retriable: true`. -/
def New (trace : String) (msg : String) : GoErr :=
  GoErr.link
    { msg := msg
      respCode := UninitializedResponseCode
      errCode := UninitializedErrorCode
      stack := trace
      retriable := true }
    none

/-- Go function `Newf(format, args...)`: same as `New` with the formatted
message. -/
def Newf (trace : String) (formatted : String) : GoErr :=
  GoErr.link
    { msg := formatted
      respCode := UninitializedResponseCode
      errCode := UninitializedErrorCode
      stack := trace
      retriable := true }
    none

/-- Go function `ToHTTPError(err)`: if `err` satisfies the `HTTPError`
interface (in this package: it is a `*baseHTTPError`), return it unchanged;
otherwise (foreign error or `nil`) build a fresh link with empty message,
sentinel codes, `inner = err`, the `UninitializedStackTrace` marker and
`retriable: true`. -/
def ToHTTPError (err : Option GoErr) : GoErr :=
  match err with
  | some (GoErr.link d inner) => GoErr.link d inner
  | _ =>
    GoErr.link
      { msg := ""
        respCode := UninitializedResponseCode
        errCode := UninitializedErrorCode
        stack := UninitializedStackTrace
        retriable := true }
      err

/-!
Spec-side definitions: declarative formulations of the resolution policies,
written from the specification's words, to be compared with the method
definitions above.
-/

/-- Spec reading: the `respCode` fields of the ErrorLinks of the chain, from
the receiver (outermost) inward; a foreign leaf contributes nothing. -/
def linkCodes : GoErr → List Int
  | .foreign _ => []
  | .link d none => [d.respCode]
  | .link d (some e) => d.respCode :: linkCodes e

/-- Spec reading: the `errCode` fields of the ErrorLinks of the chain, from
the receiver inward. -/
def linkErrCodes : GoErr → List String
  | .foreign _ => []
  | .link d none => [d.errCode]
  | .link d (some e) => d.errCode :: linkErrCodes e

/-- Spec reading: the first value in the list that is not the integer
sentinel; the sentinel when there is none. -/
def firstNonSentinelInt : List Int → Int
  | [] => UninitializedResponseCode
  | c :: rest => if c = UninitializedResponseCode then firstNonSentinelInt rest else c

/-- Spec reading: the first value in the list that is not the string
sentinel; the sentinel when there is none. -/
def firstNonSentinelStr : List String → String
  | [] => UninitializedErrorCode
  | c :: rest => if c = UninitializedErrorCode then firstNonSentinelStr rest else c

/-- Spec reading of `Error()`: every link's own non-empty message, outermost
to innermost, ending with the foreign leaf's text when the chain terminates
in a foreign error. -/
def specMsgSeq : GoErr → List String
  | .foreign t => [t]
  | .link d none => if d.msg = "" then [] else [d.msg]
  | .link d (some e) => (if d.msg = "" then [] else [d.msg]) ++ specMsgSeq e

/-- Spec reading of `Message()`: the first non-empty message walking inward;
failing that, the foreign leaf's text; failing that, `UnknownErrorMsg`. -/
def specMessage : GoErr → String
  | .foreign t => t
  | .link d none => if d.msg = "" then UnknownErrorMsg else d.msg
  | .link d (some e) => if d.msg = "" then specMessage e else d.msg

/-- Spec reading of `Retriable()`: `true` when the innermost reachable node
is foreign, else the innermost ErrorLink's own flag. -/
def rootRetriable : GoErr → Bool
  | .foreign _ => true
  | .link d none => d.retriable
  | .link _ (some e) => rootRetriable e

/-!
Chain observations used to state the stack-trace invariant.
-/

/-- The `stack` fields of the ErrorLinks of the chain, outermost to
innermost. -/
def stackList : GoErr → List String
  | .foreign _ => []
  | .link d none => [d.stack]
  | .link d (some e) => d.stack :: stackList e

/-- The ErrorLinks of the chain (each paired with its whole tail), outermost
to innermost; a foreign leaf is not a link. -/
def subLinks : GoErr → List GoErr
  | .foreign _ => []
  | .link d none => [.link d none]
  | .link d (some e) => .link d (some e) :: subLinks e

/-- The innermost ErrorLink of the chain (with its tail). -/
def lastLink : GoErr → GoErr
  | .foreign t => .foreign t
  | .link d none => .link d none
  | .link d (some (.foreign t)) => .link d (some (.foreign t))
  | .link _ (some (.link d2 i2)) => lastLink (.link d2 i2)

/-- An ErrorLink that is a root (`inner == nil`) or directly wraps a foreign
error. -/
def isRootOrWrapsForeign : GoErr → Bool
  | .link _ none => true
  | .link _ (some (.foreign _)) => true
  | _ => false

/-- The `stack` field of a link (empty for a foreign error, which has no such
field). -/
def stackField : GoErr → String
  | .foreign _ => ""
  | .link d _ => d.stack

/-- True when no ErrorLink of the chain carries a non-empty message. -/
def allLinkMsgsEmpty : GoErr → Bool
  | .foreign _ => true
  | .link d none => d.msg = ""
  | .link d (some e) => d.msg = "" && allLinkMsgsEmpty e

/-- True when the chain terminates at a root ErrorLink (no foreign leaf). -/
def endsAtRoot : GoErr → Bool
  | .foreign _ => false
  | .link _ none => true
  | .link _ (some e) => endsAtRoot e

/-- Iterated wrapping: apply `wrap1` once per `(trace, msg)` pair, innermost
pair last. Models a tower of `Wrap` calls above a given error. -/
def wrapMany : GoErr → List (String × String) → GoErr
  | e, [] => e
  | e, (tr, m) :: rest => wrap1 tr (wrapMany e rest) m

/-- The chains (sequences of links ending at `nil` or at a foreign leaf) that
can be produced by the construction API `New`/`Newf`/`Wrap`/`Wrapf`/
`ToHTTPError`. `Newf` and `Wrapf` build the same values as `New` and `Wrap`
with the formatted message, so the `new`/`wrapLink`/`wrapForeign`
constructors cover them. The `trace` arguments model the return value of the
package's `stackTrace()` helper, which always keeps the first line of the
`runtime.Stack` output (the goroutine header), so a captured trace is never
the empty string: this is the `h` hypothesis of the capturing constructors. -/
inductive Built : GoErr → Prop where
  | new (msg trace : String) (h : trace ≠ "") : Built (New trace msg)
  | wrapLink (msg trace : String) (e : GoErr) (hb : Built e) :
      Built (wrap1 trace e msg)
  | wrapForeign (t msg trace : String) (h : trace ≠ "") :
      Built (wrap1 trace (GoErr.foreign t) msg)
  | toHTTPForeign (t : String) : Built (ToHTTPError (some (GoErr.foreign t)))
  | toHTTPNil : Built (ToHTTPError none)

/-- Modelled from the spec: the body of `stackTrace()` depends on
`runtime.Stack`, whose output is runtime state and is not part of this
repository. Per the spec, the capture keeps the first line of that output —
the goroutine/thread header — so every genuinely captured trace begins with
the ten characters of the goroutine header prefix. -/
abbrev startsWithGoroutineHeader (s : String) : Prop := s.take 10 = "goroutine "

/-!
Helper lemmas.
-/

/-- Induction along a chain: foreign leaves, root links, and links with a
non-nil inner error. -/
theorem chainInduction {P : GoErr → Prop}
    (hf : ∀ t, P (GoErr.foreign t))
    (hroot : ∀ d, P (GoErr.link d none))
    (hstep : ∀ d e, P e → P (GoErr.link d (some e))) :
    ∀ e, P e
  | GoErr.foreign t => hf t
  | GoErr.link d none => hroot d
  | GoErr.link d (some e) => hstep d e (chainInduction hf hroot hstep e)

/-- A value produced by the construction API is always an ErrorLink, never a
foreign error. -/
theorem builtIsLink {e : GoErr} (h : Built e) : ∃ d i, e = GoErr.link d i := by
  cases h with
  | new msg trace h => exact ⟨_, _, rfl⟩
  | wrapLink msg trace e hb => exact ⟨_, _, rfl⟩
  | wrapForeign t msg trace h => exact ⟨_, _, rfl⟩
  | toHTTPForeign t => exact ⟨_, _, rfl⟩
  | toHTTPNil => exact ⟨_, _, rfl⟩

/-- The `ResponseCode` walk returns the first non-sentinel `respCode` of the
chain's links, and the sentinel when there is none. -/
theorem responseCode_eq_firstNonSentinel (e : GoErr) :
    e.ResponseCode = firstNonSentinelInt (linkCodes e) := by
  induction e using chainInduction with
  | hf t => simp [GoErr.ResponseCode, linkCodes, firstNonSentinelInt]
  | hroot d =>
      by_cases h : d.respCode = UninitializedResponseCode <;>
        simp [GoErr.ResponseCode, linkCodes, firstNonSentinelInt, h]
  | hstep d e ih =>
      by_cases h : d.respCode = UninitializedResponseCode
      · cases e with
        | foreign t =>
            simp [GoErr.ResponseCode, linkCodes, firstNonSentinelInt, h]
        | link d2 i2 =>
            simpa [GoErr.ResponseCode, linkCodes, firstNonSentinelInt, h] using ih
      · cases e <;> simp [GoErr.ResponseCode, linkCodes, firstNonSentinelInt, h]

/-- The `ErrorCode` walk returns the first non-sentinel `errCode` of the
chain's links, and the sentinel when there is none. -/
theorem errorCode_eq_firstNonSentinel (e : GoErr) :
    e.ErrorCode = firstNonSentinelStr (linkErrCodes e) := by
  induction e using chainInduction with
  | hf t => simp [GoErr.ErrorCode, linkErrCodes, firstNonSentinelStr]
  | hroot d =>
      by_cases h : d.errCode = UninitializedErrorCode <;>
        simp [GoErr.ErrorCode, linkErrCodes, firstNonSentinelStr, h]
  | hstep d e ih =>
      by_cases h : d.errCode = UninitializedErrorCode
      · cases e with
        | foreign t =>
            simp [GoErr.ErrorCode, linkErrCodes, firstNonSentinelStr, h]
        | link d2 i2 =>
            simpa [GoErr.ErrorCode, linkErrCodes, firstNonSentinelStr, h] using ih
      · cases e <;> simp [GoErr.ErrorCode, linkErrCodes, firstNonSentinelStr, h]

/-- The `Message` walk computes the declarative `specMessage`. -/
theorem message_eq_specMessage (e : GoErr) : e.Message = specMessage e := by
  induction e using chainInduction with
  | hf t => rfl
  | hroot d => simp [GoErr.Message, specMessage]
  | hstep d e ih =>
      cases e with
      | foreign t => simp [GoErr.Message, specMessage]
      | link d2 i2 => simp [GoErr.Message, specMessage, ih, specMessage]

/-- The `Error()` accumulator loop appends the declarative message sequence
to the accumulator. -/
theorem errorLoop_eq_specMsgSeq (e : GoErr) :
    ∀ acc, errorLoop e acc = acc ++ specMsgSeq e := by
  induction e using chainInduction with
  | hf t => intro acc; simp [errorLoop, specMsgSeq]
  | hroot d => intro acc; simp [errorLoop, specMsgSeq]
  | hstep d e ih => intro acc; simp [errorLoop, specMsgSeq, ih]

/-- `Error()` joins the declarative message sequence with newlines, and
returns the unknown-error constant when that sequence is empty. -/
theorem error_eq_specMsgSeq (e : GoErr) :
    e.Error =
      if specMsgSeq e = [] then UnknownErrorMsg
      else String.intercalate "\n" (specMsgSeq e) := by
  unfold GoErr.Error
  rw [errorLoop_eq_specMsgSeq e []]
  by_cases h : specMsgSeq e = []
  · rw [h]; rfl
  · simp [h]

/-- The `Retriable` walk computes the declarative root-resolved flag. -/
theorem retriable_eq_rootRetriable (e : GoErr) : e.Retriable = rootRetriable e := by
  induction e using chainInduction with
  | hf t => rfl
  | hroot d => rfl
  | hstep d e ih =>
      cases e with
      | foreign t => rfl
      | link d2 i2 => simpa [GoErr.Retriable, rootRetriable] using ih

/-- Wrapping does not change the root-resolved retriable flag. -/
theorem rootRetriable_wrapMany (e : GoErr) (ws : List (String × String)) :
    rootRetriable (wrapMany e ws) = rootRetriable e := by
  induction ws with
  | nil => rfl
  | cons p rest ih => cases p with
    | mk tr m => simp [wrapMany, wrap1, rootRetriable, ih]

/-- On a chain with no foreign leaf and no non-empty link message, the
declarative message sequence is empty. -/
theorem specMsgSeq_nil_of_empty :
    ∀ e : GoErr, endsAtRoot e = true → allLinkMsgsEmpty e = true →
      specMsgSeq e = [] := by
  intro e
  induction e using chainInduction with
  | hf t => intro hr _; simp [endsAtRoot] at hr
  | hroot d =>
      intro _ hm
      simp [allLinkMsgsEmpty] at hm
      simp [specMsgSeq, hm]
  | hstep d e ih =>
      intro hr hm
      simp [endsAtRoot] at hr
      simp [allLinkMsgsEmpty] at hm
      obtain ⟨h1, h2⟩ := hm
      simp [specMsgSeq, h1, ih hr h2]

/-- On a chain with no foreign leaf and no non-empty link message, `Message`
returns the unknown-error constant. -/
theorem message_unknown_of_empty :
    ∀ e : GoErr, endsAtRoot e = true → allLinkMsgsEmpty e = true →
      e.Message = UnknownErrorMsg := by
  intro e
  induction e using chainInduction with
  | hf t => intro hr _; simp [endsAtRoot] at hr
  | hroot d =>
      intro _ hm
      simp [allLinkMsgsEmpty] at hm
      simp [GoErr.Message, hm]
  | hstep d e ih =>
      intro hr hm
      simp [endsAtRoot] at hr
      simp [allLinkMsgsEmpty] at hm
      obtain ⟨h1, h2⟩ := hm
      cases e with
      | foreign t => simp [endsAtRoot] at hr
      | link d2 i2 => simp [GoErr.Message, h1, ih hr h2]

/-- On a chain with no foreign leaf and no non-empty link message,
`InnerMessage` returns the unknown-error constant. -/
theorem innerMessage_unknown_of_empty :
    ∀ e : GoErr, endsAtRoot e = true → allLinkMsgsEmpty e = true →
      e.InnerMessage = UnknownErrorMsg := by
  intro e
  induction e using chainInduction with
  | hf t => intro hr _; simp [endsAtRoot] at hr
  | hroot d =>
      intro _ hm
      simp [allLinkMsgsEmpty] at hm
      simp [GoErr.InnerMessage, hm]
  | hstep d e ih =>
      intro hr hm
      simp [endsAtRoot] at hr
      simp [allLinkMsgsEmpty] at hm
      obtain ⟨h1, h2⟩ := hm
      cases e with
      | foreign t => simp [endsAtRoot] at hr
      | link d2 i2 => simpa [GoErr.InnerMessage] using ih hr h2

/-- Claim C1: for every chain of ErrorLinks, `ResponseCode()` called on any
link returns the `respCode` of the outermost link (receiver first, walking
inward) whose `respCode` is not the sentinel `-1`; if the walk reaches a
foreign leaf or exhausts the chain at the root without finding a non-sentinel
value, it returns the sentinel (`firstNonSentinelInt` of an exhausted list is
`UninitializedResponseCode`, and `linkCodes` stops at a foreign leaf).
`ErrorCode()` obeys the same rule with the empty-string sentinel. -/
theorem C1_outermost_code_resolution :
    ∀ (d : LinkData) (i : Option GoErr),
      (GoErr.link d i).ResponseCode = firstNonSentinelInt (linkCodes (GoErr.link d i)) ∧
      (GoErr.link d i).ErrorCode = firstNonSentinelStr (linkErrCodes (GoErr.link d i)) :=
  fun _ _ =>
    ⟨responseCode_eq_firstNonSentinel _, errorCode_eq_firstNonSentinel _⟩

/-- Claim C3: `Wrap(nil, m)` is `nil` for every message `m`, and
`Wrapf(nil, fmt, args...)` is `nil` for every formatted message. -/
theorem C3_wrap_nil_is_nil :
    ∀ (trace m : String), Wrap trace none m = none ∧ Wrapf trace none m = none :=
  fun _ _ => ⟨rfl, rfl⟩

/-- Claim C4: `ToHTTPError` applied to a value that already satisfies the
`HTTPError` capability (a `*baseHTTPError` link) returns that same value
unchanged, so `ToHTTPError` is idempotent on every error value. -/
theorem C4_toHTTPError_idempotent :
    (∀ (d : LinkData) (i : Option GoErr),
      ToHTTPError (some (GoErr.link d i)) = GoErr.link d i) ∧
    ∀ e : Option GoErr, ToHTTPError (some (ToHTTPError e)) = ToHTTPError e := by
  refine ⟨fun d i => rfl, ?_⟩
  rintro (_ | (t | ⟨d, i⟩)) <;> rfl

/-- Claim C5: `Retriable()` is resolved at the root: it equals the
declarative `rootRetriable` (true when the innermost reachable node is
foreign, else the innermost ErrorLink's own flag); the flag of a non-root
link is ignored; roots created by `New`/`Newf` default to `true`; and after
`SetRetriable(false)` on a root, `Retriable()` on any tower of wrappers above
that root returns `false`. -/
theorem C5_retriable_root_resolution :
    (∀ (d : LinkData) (i : Option GoErr),
      (GoErr.link d i).Retriable = rootRetriable (GoErr.link d i)) ∧
    (∀ (m : String) (rc : Int) (ec st : String) (b bAlt : Bool) (e : GoErr),
      (GoErr.link ⟨m, rc, ec, st, b⟩ (some e)).Retriable =
        (GoErr.link ⟨m, rc, ec, st, bAlt⟩ (some e)).Retriable) ∧
    (∀ trace msg, (New trace msg).Retriable = true) ∧
    (∀ trace formatted, (Newf trace formatted).Retriable = true) ∧
    ∀ (trace msg : String) (ws : List (String × String)),
      (wrapMany ((New trace msg).SetRetriable false) ws).Retriable = false := by
  refine ⟨fun d i => retriable_eq_rootRetriable _, ?_, fun _ _ => rfl, fun _ _ => rfl, ?_⟩
  · intro m rc ec st b bAlt e
    cases e <;> rfl
  · intro trace msg ws
    rw [retriable_eq_rootRetriable, rootRetriable_wrapMany]
    rfl

/-- Claim C6: `Error()` returns the newline-joined sequence of every link's
own non-empty message from outermost to innermost, with the foreign leaf's
own error text last when the chain terminates in a foreign error
(`specMsgSeq`); when that sequence is empty it returns exactly the
unknown-error constant. In particular the doubly wrapped foreign error joins
its three messages with newlines. -/
theorem C6_error_joins_messages :
    (∀ (d : LinkData) (i : Option GoErr),
      (GoErr.link d i).Error =
        if specMsgSeq (GoErr.link d i) = [] then UnknownErrorMsg
        else String.intercalate "\n" (specMsgSeq (GoErr.link d i))) ∧
    ∀ tr1 tr2 : String,
      (Wrap tr2 (Wrap tr1 (some (GoErr.foreign "test err")) "http test err")
          "outer http test err").map GoErr.Error =
        some "outer http test err\nhttp test err\ntest err" :=
  ⟨fun _ _ => error_eq_specMsgSeq _, fun _ _ => rfl⟩

/-- Claim C7: `Message()` returns the first non-empty message walking from
the receiver inward; reaching a foreign leaf first returns that leaf's error
text; a chain exhausted at a root with all messages empty returns the
unknown-error constant (`specMessage`). The three resolution examples follow. -/
theorem C7_message_resolution :
    (∀ (d : LinkData) (i : Option GoErr),
      (GoErr.link d i).Message = specMessage (GoErr.link d i)) ∧
    (∀ trace : String, (New trace "x").Message = "x") ∧
    (∀ trace : String, (New trace "").Message = UnknownErrorMsg) ∧
    ∀ tr1 tr2 : String,
      (Wrap tr2 (Wrap tr1 (some (GoErr.foreign "root")) "") "").map GoErr.Message =
        some "root" :=
  ⟨fun _ _ => message_eq_specMessage _, fun _ => rfl, fun _ => rfl, fun _ _ => rfl⟩

/-- Claim C2: in every chain built only with `New`, `Newf`, `Wrap`, `Wrapf`
and `ToHTTPError`, exactly one ErrorLink carries a non-empty stack trace; it
is the innermost link, which is a root or wraps a foreign error;
`StackTrace()` called at any link of the chain returns that trace, so all
links report the same one. Moreover `Wrap`/`Wrapf` of an existing ErrorLink
leave the new link's stack field empty. -/
theorem C2_single_authoritative_stackTrace :
    (∀ e : GoErr, Built e →
      (stackList e).filter (fun s => s != "") = [e.StackTrace] ∧
      e.StackTrace = stackField (lastLink e) ∧
      isRootOrWrapsForeign (lastLink e) = true ∧
      e.StackTrace ≠ "" ∧
      ∀ l ∈ subLinks e, l.StackTrace = e.StackTrace) ∧
    ∀ (trace msg : String) (d : LinkData) (i : Option GoErr),
      wrap1 trace (GoErr.link d i) msg =
        GoErr.link
          { msg := msg, respCode := UninitializedResponseCode,
            errCode := UninitializedErrorCode, stack := "", retriable := false }
          (some (GoErr.link d i)) := by
  constructor
  · intro e h
    induction h with
    | new msg trace htr =>
        have hb : (trace != "") = true := bne_iff_ne.mpr htr
        refine ⟨?_, rfl, rfl, htr, ?_⟩
        · simp [New, stackList, GoErr.StackTrace, List.filter, hb]
        · intro l hl
          simp [New, subLinks] at hl
          subst hl
          rfl
    | wrapLink msg trace e hb ih =>
        obtain ⟨d, i, rfl⟩ := builtIsLink hb
        obtain ⟨hfil, hlast, hroot2, hne, hall⟩ := ih
        have hst : (wrap1 trace (GoErr.link d i) msg).StackTrace =
            (GoErr.link d i).StackTrace := rfl
        refine ⟨?_, ?_, ?_, ?_, ?_⟩
        · rw [hst]
          simpa [wrap1, stackList, List.filter] using hfil
        · rw [hst]
          simpa [wrap1, lastLink] using hlast
        · simpa [wrap1, lastLink] using hroot2
        · rw [hst]; exact hne
        · intro l hl
          rw [hst]
          simp [wrap1, subLinks] at hl
          rcases hl with rfl | hl
          · exact hst
          · exact hall l hl
    | wrapForeign t msg trace htr =>
        have hb : (trace != "") = true := bne_iff_ne.mpr htr
        refine ⟨?_, rfl, rfl, htr, ?_⟩
        · simp [wrap1, stackList, GoErr.StackTrace, List.filter, hb]
        · intro l hl
          simp [wrap1, subLinks] at hl
          subst hl
          rfl
    | toHTTPForeign t =>
        have hb : (UninitializedStackTrace != "") = true := by decide
        refine ⟨?_, rfl, rfl, (by decide : UninitializedStackTrace ≠ ""), ?_⟩
        · simp [ToHTTPError, stackList, GoErr.StackTrace, List.filter, hb]
        · intro l hl
          simp [ToHTTPError, subLinks] at hl
          subst hl
          rfl
    | toHTTPNil =>
        have hb : (UninitializedStackTrace != "") = true := by decide
        refine ⟨?_, rfl, rfl, (by decide : UninitializedStackTrace ≠ ""), ?_⟩
        · simp [ToHTTPError, stackList, GoErr.StackTrace, List.filter, hb]
        · intro l hl
          simp [ToHTTPError, subLinks] at hl
          subst hl
          rfl
  · intro trace msg d i
    rfl

/-- Claim C8: `ToHTTPError` on a non-nil error that is not an `HTTPError`
returns a new ErrorLink with empty message, sentinel response code `-1`,
empty error code, `inner` equal to the argument, `retriable` true, and
`stackTrace` equal to the fixed marker, which differs from the empty string
and from every genuinely captured trace (any string beginning with the
goroutine header). -/
theorem C8_toHTTPError_foreign_fields :
    (∀ t : String,
      ToHTTPError (some (GoErr.foreign t)) =
        GoErr.link
          { msg := "", respCode := UninitializedResponseCode,
            errCode := UninitializedErrorCode, stack := UninitializedStackTrace,
            retriable := true }
          (some (GoErr.foreign t))) ∧
    UninitializedStackTrace ≠ "" ∧
    ∀ s : String, startsWithGoroutineHeader s → s ≠ UninitializedStackTrace := by
  refine ⟨fun t => rfl, by decide, ?_⟩
  intro s hs heq
  rw [heq] at hs
  exact absurd hs (by decide)

/-- Witness for C8: a concrete goroutine-header trace is distinct from the
sentinel marker. -/
theorem C8_witness :
    startsWithGoroutineHeader "goroutine 7 [running]:" ∧
    "goroutine 7 [running]:" ≠ UninitializedStackTrace :=
  ⟨by decide, C8_toHTTPError_foreign_fields.2.2 "goroutine 7 [running]:" (by decide)⟩

/-- Counterexample to C9 as stated: the chain `Wrap(foreign "boom", "")` has
no ErrorLink with a non-empty message and terminates in a foreign error, yet
`Message()`, `InnerMessage()` and `Error()` all return the foreign leaf's
text `"boom"`, not the unknown-error constant. -/
theorem C9_counterexample :
    Wrap "goroutine 7 [running]:" (some (GoErr.foreign "boom")) "" =
      some (GoErr.link
        { msg := "", respCode := UninitializedResponseCode,
          errCode := UninitializedErrorCode, stack := "goroutine 7 [running]:",
          retriable := false }
        (some (GoErr.foreign "boom"))) ∧
    allLinkMsgsEmpty
      (GoErr.link
        { msg := "", respCode := UninitializedResponseCode,
          errCode := UninitializedErrorCode, stack := "goroutine 7 [running]:",
          retriable := false }
        (some (GoErr.foreign "boom"))) = true ∧
    (GoErr.link
        { msg := "", respCode := UninitializedResponseCode,
          errCode := UninitializedErrorCode, stack := "goroutine 7 [running]:",
          retriable := false }
        (some (GoErr.foreign "boom"))).Message = "boom" ∧
    (GoErr.link
        { msg := "", respCode := UninitializedResponseCode,
          errCode := UninitializedErrorCode, stack := "goroutine 7 [running]:",
          retriable := false }
        (some (GoErr.foreign "boom"))).InnerMessage = "boom" ∧
    (GoErr.link
        { msg := "", respCode := UninitializedResponseCode,
          errCode := UninitializedErrorCode, stack := "goroutine 7 [running]:",
          retriable := false }
        (some (GoErr.foreign "boom"))).Error = "boom" ∧
    ("boom" : String) ≠ UnknownErrorMsg :=
  ⟨rfl, rfl, rfl, rfl, by decide, by decide⟩

/-- Claim C9 (amended): for every chain of ErrorLinks that terminates at a
root (no foreign leaf) in which no link carries a non-empty message,
`Message()`, `InnerMessage()` and `Error()` all resolve to the unknown-error
constant and never return an empty string. -/
theorem C9_amended_unknown_error :
    ∀ e : GoErr, endsAtRoot e = true → allLinkMsgsEmpty e = true →
      e.Message = UnknownErrorMsg ∧ e.InnerMessage = UnknownErrorMsg ∧
      e.Error = UnknownErrorMsg ∧
      e.Message ≠ "" ∧ e.InnerMessage ≠ "" ∧ e.Error ≠ "" := by
  intro e hr hm
  have h1 := message_unknown_of_empty e hr hm
  have h2 := innerMessage_unknown_of_empty e hr hm
  have h3 : e.Error = UnknownErrorMsg := by
    rw [error_eq_specMsgSeq, specMsgSeq_nil_of_empty e hr hm]
    rfl
  refine ⟨h1, h2, h3, ?_, ?_, ?_⟩
  · rw [h1]; decide
  · rw [h2]; decide
  · rw [h3]; decide

/-- Witness for C9 (amended): the root `New("")` satisfies both hypotheses
and resolves to the unknown-error constant. -/
theorem C9_witness :
    endsAtRoot (New "goroutine 7 [running]:" "") = true ∧
    allLinkMsgsEmpty (New "goroutine 7 [running]:" "") = true ∧
    (New "goroutine 7 [running]:" "").Message = UnknownErrorMsg ∧
    (New "goroutine 7 [running]:" "").InnerMessage = UnknownErrorMsg ∧
    (New "goroutine 7 [running]:" "").Error = UnknownErrorMsg :=
  ⟨rfl, rfl,
    (C9_amended_unknown_error (New "goroutine 7 [running]:" "") rfl rfl).1,
    (C9_amended_unknown_error (New "goroutine 7 [running]:" "") rfl rfl).2.1,
    (C9_amended_unknown_error (New "goroutine 7 [running]:" "") rfl rfl).2.2.1⟩

/-- Claim C10: `ToHTTPError(nil)` does not return nil: it returns a fresh
ErrorLink with null `inner`, whose `Message()` is the unknown-error constant,
whose `ResponseCode()` is the sentinel `-1`, and whose `Retriable()` is true;
`Wrap`, by contrast, maps nil to nil. -/
theorem C10_toHTTPError_nil_not_nil :
    ToHTTPError none =
      GoErr.link
        { msg := "", respCode := UninitializedResponseCode,
          errCode := UninitializedErrorCode, stack := UninitializedStackTrace,
          retriable := true }
        none ∧
    (ToHTTPError none).Message = UnknownErrorMsg ∧
    (ToHTTPError none).ResponseCode = UninitializedResponseCode ∧
    (ToHTTPError none).Retriable = true ∧
    ∀ (trace m : String), Wrap trace none m = none :=
  ⟨rfl, rfl, rfl, rfl, fun _ _ => rfl⟩

/-- Witness for C2: for the concrete chain `Wrap(Wrap(foreign, "a"), "b")`
the single non-empty stack field is the one `StackTrace()` reports at the
outermost link, and it is non-empty. -/
theorem C2_witness :
    (stackList (wrap1 "unused" (wrap1 "goroutine 7 [running]:" (GoErr.foreign "cause") "a") "b")).filter
        (fun s => s != "") =
      [(wrap1 "unused" (wrap1 "goroutine 7 [running]:" (GoErr.foreign "cause") "a") "b").StackTrace] ∧
    (wrap1 "unused" (wrap1 "goroutine 7 [running]:" (GoErr.foreign "cause") "a") "b").StackTrace ≠ "" := by
  have hb : Built (wrap1 "unused" (wrap1 "goroutine 7 [running]:" (GoErr.foreign "cause") "a") "b") :=
    Built.wrapLink "b" "unused" _
      (Built.wrapForeign "cause" "a" "goroutine 7 [running]:" (by decide))
  obtain ⟨h1, _, _, h4, _⟩ := C2_single_authoritative_stackTrace.1 _ hb
  exact ⟨h1, h4⟩
